import Mathlib

set_option maxHeartbeats 1000000

/-! Verification of the rov-submariner web control server
(`src/web_server_app.py`): a shallow embedding of its global state, socketio
handlers, telemetry sampler, event log and camera stream, with theorems
settling the specified behavioural properties.  Line numbers in the doc
comments refer to `src/web_server_app.py`. -/

/-- A log entry as built by `add_log` (lines 109-114): a wall-clock timestamp
(modelled as an abstract `Nat` supplied by the caller, standing for the
formatted `HH:MM:SS` string), a level and a message. -/
structure LogEntry where
  timestamp : Nat
  level : String
  message : String
deriving DecidableEq, Repr

/-- Outbound socket messages emitted by the server (lines 121, 246-249,
259-265, 288, 293, 299, 310).  The jpeg/base64 payload of a video frame is an
opaque string. -/
inductive Msg where
  | systemStatus (wifi battery : Int) (depth : Option Int) (light : Option Bool)
  | logsSnapshot (entries : List LogEntry)
  | newLog (entry : LogEntry)
  | lightStatus (status : Bool)
  | videoFrame (frame : String)
  | photoTaken (ts : Nat)
deriving DecidableEq, Repr

/-- A `joystick_move` payload: a dict that may be missing the `x` or `y` key
(`handle_joystick` reads both, lines 273-276).  Component values are modelled
as rationals. -/
structure JoyPayload where
  x : Option ℚ
  y : Option ℚ
deriving DecidableEq, Repr

/-- The global mutable state: `system_status` (lines 59-66), `system_logs`
(line 69), the configured `max_logs` capacity (line 116), and the connected
sessions together with the ordered list of messages delivered to each (the
flask-socketio session registry). -/
structure ServerState where
  wifi : Int
  battery : Int
  depth : Int
  light : Bool
  joystick : JoyPayload
  cameraActive : Bool
  maxLogs : Nat
  logs : List LogEntry
  sessions : List (Nat × List Msg)
deriving DecidableEq, Repr

/-- The initial `system_status` from the default configuration (lines 30-39
and 59-66): wifi 85, battery 67, depth 0, light off, joystick at the origin,
camera active, no logs, no sessions. -/
def initState (maxLogs : Nat) : ServerState :=
  { wifi := 85, battery := 67, depth := 0, light := false,
    joystick := { x := some 0, y := some 0 }, cameraActive := true,
    maxLogs := maxLogs, logs := [], sessions := [] }

/-- `emit(...)` inside a handler: deliver a message to the requesting session
only. -/
def emitTo (sid : Nat) (m : Msg) (st : ServerState) : ServerState :=
  { st with sessions :=
      st.sessions.map fun p => if p.1 == sid then (p.1, p.2 ++ [m]) else p }

/-- `socketio.emit(...)` at module level, or `emit(..., broadcast=True)`:
deliver a message to every connected session. -/
def broadcast (m : Msg) (st : ServerState) : ServerState :=
  { st with sessions := st.sessions.map fun p => (p.1, p.2 ++ [m]) }

/-- The list update performed by `add_log` (lines 115-118): append the entry,
then `pop(0)` the oldest entry when the length exceeds `max_logs`. -/
def pushLog (maxLogs : Nat) (l : List LogEntry) (e : LogEntry) : List LogEntry :=
  let grown := l ++ [e]
  if maxLogs < grown.length then grown.drop 1 else grown

/-- `add_log` (lines 107-121): build the entry, append it with capacity
eviction, and broadcast it as a `new_log` message to every connected client. -/
def addLog (ts : Nat) (message level : String) (st : ServerState) : ServerState :=
  broadcast (Msg.newLog ⟨ts, level, message⟩)
    { st with logs := pushLog st.maxLogs st.logs ⟨ts, level, message⟩ }

/-- The log entry appended by `handle_connect` (line 266). -/
def connectedEntry (ts : Nat) : LogEntry :=
  ⟨ts, "INFO", "Client connected"⟩

/-- `handle_connect` (lines 255-266): the session is registered by the
framework, then it alone receives the full `system_status` (with depth and
light) and the `logs` snapshot, and finally `add_log` broadcasts the
"Client connected" entry to everyone, the new session included. -/
def handleConnect (sid ts : Nat) (st : ServerState) : ServerState :=
  let st1 := { st with sessions := st.sessions ++ [(sid, [])] }
  let st2 := emitTo sid
    (Msg.systemStatus st.wifi st.battery (some st.depth) (some st.light)) st1
  let st3 := emitTo sid (Msg.logsSnapshot st.logs) st2
  addLog ts "Client connected" "INFO" st3

/-- The `wifi_strength` update of one tick of `update_system_status`
(lines 230-239): `real` is the result of `get_wifi_signal_strength` (`None` on
failure), `step` the `random.randint(-5, 5)` draw.  Note the simulated walk is
clamped as `max(10, min(100, ...))` — the lower bound is 10, not 0. -/
def wifiTick (detect sim : Bool) (real : Option Int) (step wifi : Int) : Int :=
  if detect then
    match real with
    | some r => r
    | none => if sim then max 10 (min 100 (wifi + step)) else wifi
  else
    if sim then max 10 (min 100 (wifi + step)) else wifi

/-- The `battery` update of one tick (lines 242-243), clamped as
`max(0, min(100, ...))`. -/
def batteryTick (sim : Bool) (step battery : Int) : Int :=
  if sim then max 0 (min 100 (battery + step)) else battery

/-- The wifi update as the specification words it: when the lookup fails and
simulation is enabled, a random walk clamped to `[0, 100]`.  Stated only to be
compared against `wifiTick`, which is translated from the code. -/
def specWifiTick (sim : Bool) (real : Option Int) (step wifi : Int) : Int :=
  match real with
  | some r => r
  | none => if sim then max 0 (min 100 (wifi + step)) else wifi

/-- One full iteration of the `update_system_status` loop (lines 226-249):
update wifi and battery, then broadcast a `system_status` message carrying
only those two fields — no depth, no light. -/
def tick (detect sim : Bool) (real : Option Int) (wstep bstep : Int)
    (st : ServerState) : ServerState :=
  let w := wifiTick detect sim real wstep st.wifi
  let b := batteryTick sim bstep st.battery
  broadcast (Msg.systemStatus w b none none) { st with wifi := w, battery := b }

/-- Model of Python `:.2f` formatting at rational precision: the value rounded
to hundredths, rendered with exactly two decimal digits. -/
def fmt2 (q : ℚ) : String :=
  let c : Int := round (q * 100)
  let sign := if c < 0 then "-" else ""
  let a := c.natAbs
  sign ++ toString (a / 100) ++ "." ++
    (if a % 100 < 10 then "0" else "") ++ toString (a % 100)

/-- `handle_joystick` (lines 273-276): the raw payload is stored into
`system_status` first (line 275); the log f-string then reads `data[x]` and
`data[y]`, raising `KeyError` (modelled as `Except.error`) when a component is
missing, in which case `add_log` is never reached. -/
def handleJoystick (ts : Nat) (d : JoyPayload) (st : ServerState) :
    ServerState × Except String Unit :=
  let st1 := { st with joystick := d }
  match d.x, d.y with
  | some x, some y =>
      (addLog ts ("Joystick: X=" ++ fmt2 x ++ ", Y=" ++ fmt2 y) "INFO" st1,
       Except.ok ())
  | none, _ => (st1, Except.error "KeyError: x")
  | some _, none => (st1, Except.error "KeyError: y")

/-- `handle_depth` (lines 278-281): `data[value]` is read before the
assignment, so a missing value raises before any state change. -/
def handleDepth (ts : Nat) (d : Option Int) (st : ServerState) :
    ServerState × Except String Unit :=
  match d with
  | some v =>
      (addLog ts ("Depth changed to: " ++ toString v) "INFO"
        { st with depth := v }, Except.ok ())
  | none => (st, Except.error "KeyError: value")

/-- `handle_light` (lines 283-288): invert the light, log the resulting ON/OFF
state, and broadcast `light_status` to all sessions. -/
def handleLight (ts : Nat) (st : ServerState) : ServerState :=
  let st1 := { st with light := !st.light }
  let st2 := addLog ts ("Light " ++ (if st1.light then "ON" else "OFF")) "INFO" st1
  broadcast (Msg.lightStatus st1.light) st2

/-- Inbound control commands routed to the socketio event handlers. -/
inductive Cmd where
  | joystickMove (d : JoyPayload)
  | depthChange (d : Option Int)
  | lightToggle
deriving DecidableEq, Repr

/-- Dispatch one inbound message to its handler, reporting a raised exception
as `Except.error`. -/
def dispatch (ts : Nat) (c : Cmd) (st : ServerState) :
    ServerState × Except String Unit :=
  match c with
  | Cmd.joystickMove d => handleJoystick ts d st
  | Cmd.depthChange d => handleDepth ts d st
  | Cmd.lightToggle => (handleLight ts st, Except.ok ())

/-- The handler loop: flask-socketio contains an exception raised by one
handler invocation and goes on processing subsequent messages. -/
def runCmds (cs : List (Nat × Cmd)) (st : ServerState) : ServerState :=
  cs.foldl (fun s c => (dispatch c.1 c.2 s).1) st

/-- A captured frame: either a real device capture or the synthetic
placeholder drawn by `create_dummy_frame` (lines 177-184). -/
inductive Frame where
  | real (id : Nat)
  | dummy
deriving DecidableEq, Repr

/-- `CameraStream` state (lines 123-129): whether `self.camera` is present and
opened, the current frame slot, and the running flag. -/
structure Cam where
  cameraOpen : Bool
  frame : Option Frame
  running : Bool
deriving DecidableEq, Repr

/-- The configured video source (line 134). -/
inductive Source where
  | camera
  | url
  | dummy
deriving DecidableEq, Repr

/-- `CameraStream.start` (lines 131-175) for a given device-open outcome.
Returns the new state and the `(message, level)` pairs passed to `add_log`:
one "attempting" line, then either the success line or — when the device
cannot be opened (and always in dummy mode, where `self.camera` is `None`) —
the single WARNING fallback line of line 166 next to `create_dummy_frame`. -/
def startCam (src : Source) (idx : Nat) (openOk : Bool) (c : Cam) :
    Cam × List (String × String) :=
  match src with
  | Source.camera =>
      let attempt := ("Attempting to connect camera index: " ++ toString idx, "INFO")
      if openOk then
        ({ c with cameraOpen := true, running := true },
          [attempt, ("Camera started successfully - Source: camera", "INFO")])
      else
        ({ c with cameraOpen := false, frame := some Frame.dummy, running := true },
          [attempt, ("Could not connect to source camera, using dummy frame", "WARNING")])
  | Source.url =>
      let attempt := ("Attempting to connect stream URL", "INFO")
      if openOk then
        ({ c with cameraOpen := true, running := true },
          [attempt, ("Camera started successfully - Source: url", "INFO")])
      else
        ({ c with cameraOpen := false, frame := some Frame.dummy, running := true },
          [attempt, ("Could not connect to source url, using dummy frame", "WARNING")])
  | Source.dummy =>
      ({ c with cameraOpen := false, frame := some Frame.dummy, running := true },
        [("Dummy mode activated", "INFO"),
         ("Could not connect to source dummy, using dummy frame", "WARNING")])

/-- One iteration of `CameraStream._capture_frames` (lines 186-199): read from
the device when it is open, fall back to the placeholder on a failed read or a
closed device.  The loop body calls `add_log` nowhere, so the emitted
`(message, level)` list is always empty. -/
def captureStep (read : Option Frame) (c : Cam) : Cam × List (String × String) :=
  if c.cameraOpen then
    match read with
    | some f => ({ c with frame := some f }, [])
    | none => ({ c with frame := some Frame.dummy }, [])
  else
    ({ c with frame := some Frame.dummy }, [])

/-- A fallback log entry: one emitted at WARNING or ERROR level. -/
def isFallback (p : String × String) : Bool :=
  p.2 == "WARNING" || p.2 == "ERROR"

/-- The jpeg/base64 envelope of `get_frame_base64` (lines 205-208); the
compressed payload bytes are abstracted. -/
def encodeB64 : Frame → String
  | Frame.real n => "data:image/jpeg;base64,R" ++ toString n
  | Frame.dummy => "data:image/jpeg;base64,D"

/-- `CameraStream.get_frame_base64` (lines 201-209): `None` when no frame has
ever been captured, otherwise the encoded current frame. -/
def getFrameBase64 (c : Cam) : Option String :=
  match c.frame with
  | some f => some (encodeB64 f)
  | none => none

/-- `handle_get_frame` (lines 295-299): reply with a `video_frame` to the
requesting session only when a frame is available; otherwise do nothing. -/
def handleGetFrame (sid : Nat) (c : Cam) (st : ServerState) : ServerState :=
  match getFrameBase64 c with
  | some f => emitTo sid (Msg.videoFrame f) st
  | none => st

/-- One iteration of `video_stream_thread` (lines 306-311): when
`camera_active`, pull the current encoded frame and broadcast it; when none is
available (or the camera is inactive), do nothing. -/
def videoIter (c : Cam) (st : ServerState) : ServerState :=
  if st.cameraActive then
    match getFrameBase64 c with
    | some f => broadcast (Msg.videoFrame f) st
    | none => st
  else st

/-- Any number of iterations of the video push loop, with the camera state
observed at each iteration given as a list. -/
def videoRun (cams : List Cam) (st : ServerState) : ServerState :=
  cams.foldl (fun s c => videoIter c s) st

/-- Connection and log-append events, each carrying the wall-clock timestamp
at which it occurs. -/
inductive Event where
  | connect (sid ts : Nat)
  | append (ts : Nat) (message level : String)
deriving DecidableEq, Repr

/-- Apply one event to the server state. -/
def stepEvent (st : ServerState) (e : Event) : ServerState :=
  match e with
  | Event.connect sid ts => handleConnect sid ts st
  | Event.append ts m lvl => addLog ts m lvl st

/-- Apply a sequence of events to the server state. -/
def runEvents (es : List Event) (st : ServerState) : ServerState :=
  es.foldl stepEvent st

/-- The log entries appended over a sequence of events, in order. -/
def entriesOf : List Event → List LogEntry
  | [] => []
  | Event.connect _ ts :: es => connectedEntry ts :: entriesOf es
  | Event.append ts m lvl :: es => (⟨ts, lvl, m⟩ : LogEntry) :: entriesOf es

/-- The session ids connected by a sequence of events. -/
def connectIds : List Event → List Nat
  | [] => []
  | Event.connect sid _ :: es => sid :: connectIds es
  | Event.append _ _ _ :: es => connectIds es

/-- The ids of the currently registered sessions. -/
def sessionIds (st : ServerState) : List Nat :=
  st.sessions.map Prod.fst

/-- The messages delivered so far to the session with the given id. -/
def getInbox (sid : Nat) (st : ServerState) : Option (List Msg) :=
  (st.sessions.find? fun p => p.1 == sid).map Prod.snd

/-- Whether a message belongs to the event-log protocol: the one-off `logs`
snapshot or a per-append `new_log` event. -/
def isLogMsg : Msg → Bool
  | Msg.logsSnapshot _ => true
  | Msg.newLog _ => true
  | _ => false

/-- The log-protocol messages delivered so far to the given session. -/
def inboxLogMsgs (sid : Nat) (st : ServerState) : Option (List Msg) :=
  (getInbox sid st).map (List.filter isLogMsg)

/-- The suffix of `l` of length at most `n`: its most recent `n` elements. -/
def lastN (n : Nat) (l : List α) : List α :=
  l.drop (l.length - n)

/-! ### Delivery helper lemmas -/

theorem find?_map_of_pred {α : Type} (f : α → α) (p : α → Bool)
    (hf : ∀ a, p (f a) = p a) (l : List α) :
    (l.map f).find? p = (l.find? p).map f := by
  rw [List.find?_map]
  have h : (p ∘ f) = p := funext hf
  rw [h]

theorem getInbox_broadcast (sid : Nat) (m : Msg) (st : ServerState) :
    getInbox sid (broadcast m st) = (getInbox sid st).map (· ++ [m]) := by
  unfold getInbox broadcast
  rw [find?_map_of_pred (fun p => (p.1, p.2 ++ [m])) (fun p => p.1 == sid)
    (fun a => rfl)]
  cases st.sessions.find? fun p => p.1 == sid <;> rfl

theorem getInbox_emitTo_self (sid : Nat) (m : Msg) (st : ServerState) :
    getInbox sid (emitTo sid m st) = (getInbox sid st).map (· ++ [m]) := by
  unfold getInbox emitTo
  have hf : ∀ a : Nat × List Msg,
      ((if a.1 == sid then (a.1, a.2 ++ [m]) else a).1 == sid) = (a.1 == sid) := by
    intro a
    by_cases h : a.1 == sid <;> simp [h]
  rw [find?_map_of_pred _ _ hf]
  cases hq : st.sessions.find? fun p => p.1 == sid with
  | none => rfl
  | some q =>
    have hqs := List.find?_some hq
    have h1 : q.1 = sid := by simpa using hqs
    simp [h1]

theorem getInbox_emitTo_ne (sid tgt : Nat) (m : Msg) (st : ServerState)
    (h : sid ≠ tgt) :
    getInbox sid (emitTo tgt m st) = getInbox sid st := by
  unfold getInbox emitTo
  have hf : ∀ a : Nat × List Msg,
      ((if a.1 == tgt then (a.1, a.2 ++ [m]) else a).1 == sid) = (a.1 == sid) := by
    intro a
    by_cases ha : a.1 == tgt <;> simp [ha]
  rw [find?_map_of_pred _ _ hf]
  cases hq : st.sessions.find? fun p => p.1 == sid with
  | none => rfl
  | some q =>
    have hqs := List.find?_some hq
    have h1 : q.1 = sid := by simpa using hqs
    simp [h1, h]

theorem getInbox_append_fresh (sid : Nat) (I : List Msg) (st : ServerState)
    (h : sid ∉ sessionIds st) :
    getInbox sid { st with sessions := st.sessions ++ [(sid, I)] } = some I := by
  unfold getInbox
  have hnone : st.sessions.find? (fun p => p.1 == sid) = none := by
    rw [List.find?_eq_none]
    intro x hx hpx
    have h1 : x.1 = sid := by simpa using hpx
    exact h (h1 ▸ List.mem_map_of_mem Prod.fst hx)
  simp [List.find?_append, hnone]

theorem getInbox_append_ne (sid s2 : Nat) (I : List Msg) (st : ServerState)
    (h : sid ≠ s2) :
    getInbox sid { st with sessions := st.sessions ++ [(s2, I)] }
      = getInbox sid st := by
  unfold getInbox
  have h2 : ((s2 == sid) = false) := by
    rw [beq_eq_false_iff_ne]
    exact Ne.symm h
  simp [List.find?_append, h2]

theorem getInbox_addLog (sid ts : Nat) (m lvl : String) (st : ServerState) :
    getInbox sid (addLog ts m lvl st)
      = (getInbox sid st).map (· ++ [Msg.newLog ⟨ts, lvl, m⟩]) := by
  unfold addLog
  rw [getInbox_broadcast]
  rfl

theorem getInbox_handleConnect_self (sid ts : Nat) (st : ServerState)
    (h : sid ∉ sessionIds st) :
    getInbox sid (handleConnect sid ts st)
      = some [Msg.systemStatus st.wifi st.battery (some st.depth) (some st.light),
              Msg.logsSnapshot st.logs, Msg.newLog (connectedEntry ts)] := by
  unfold handleConnect
  rw [getInbox_addLog, getInbox_emitTo_self, getInbox_emitTo_self,
    getInbox_append_fresh _ _ _ h]
  rfl

theorem getInbox_handleConnect_ne (sid s2 ts : Nat) (st : ServerState)
    (h : sid ≠ s2) :
    getInbox sid (handleConnect s2 ts st)
      = (getInbox sid st).map (· ++ [Msg.newLog (connectedEntry ts)]) := by
  unfold handleConnect
  rw [getInbox_addLog, getInbox_emitTo_ne _ _ _ _ h, getInbox_emitTo_ne _ _ _ _ h,
    getInbox_append_ne _ _ _ _ h]
  rfl

theorem filter_isLogMsg_map_newLog (es : List LogEntry) :
    (es.map Msg.newLog).filter isLogMsg = es.map Msg.newLog := by
  induction es with
  | nil => rfl
  | cons e es ih => simp [isLogMsg, ih]

theorem getInbox_runEvents (post : List Event) (sid : Nat) (st : ServerState)
    (h : sid ∉ connectIds post) :
    getInbox sid (runEvents post st)
      = (getInbox sid st).map (· ++ (entriesOf post).map Msg.newLog) := by
  induction post generalizing st with
  | nil =>
    simp [runEvents, entriesOf]
  | cons e es ih =>
    cases e with
    | append ts m lvl =>
      have h2 : sid ∉ connectIds es := by simpa [connectIds] using h
      simp only [runEvents, List.foldl_cons, stepEvent]
      rw [show List.foldl stepEvent (addLog ts m lvl st) es
            = runEvents es (addLog ts m lvl st) from rfl]
      rw [ih _ h2, getInbox_addLog]
      cases getInbox sid st <;> simp [entriesOf]
    | connect s2 ts =>
      have hsplit : sid ≠ s2 ∧ sid ∉ connectIds es := by
        constructor
        · intro e
          exact h (by simp [connectIds, e])
        · intro hmem
          exact h (by simp [connectIds, hmem])
      simp only [runEvents, List.foldl_cons, stepEvent]
      rw [show List.foldl stepEvent (handleConnect s2 ts st) es
            = runEvents es (handleConnect s2 ts st) from rfl]
      rw [ih _ hsplit.2, getInbox_handleConnect_ne _ _ _ _ hsplit.1]
      cases getInbox sid st <;> simp [entriesOf]

/-! ### Event-log capacity lemmas -/

theorem pushLog_eq_lastN (n : Nat) (l : List LogEntry) (e : LogEntry)
    (h : l.length ≤ n) :
    pushLog n l e = lastN n (l ++ [e]) := by
  show (if n < (l ++ [e]).length then (l ++ [e]).drop 1 else (l ++ [e]))
      = (l ++ [e]).drop ((l ++ [e]).length - n)
  have hl : (l ++ [e]).length = l.length + 1 := by simp
  by_cases hc : n < (l ++ [e]).length
  · rw [if_pos hc]
    congr 1
    omega
  · rw [if_neg hc]
    rw [show (l ++ [e]).length - n = 0 by omega, List.drop_zero]

theorem lastN_length_le (n : Nat) (l : List α) : (lastN n l).length ≤ n := by
  show (l.drop (l.length - n)).length ≤ n
  rw [List.length_drop]
  omega

theorem lastN_of_length_le (n : Nat) (l : List α) (h : l.length ≤ n) :
    lastN n l = l := by
  show l.drop (l.length - n) = l
  rw [show l.length - n = 0 by omega, List.drop_zero]

theorem lastN_append_lastN (n : Nat) (x es : List α) :
    lastN n (lastN n x ++ es) = lastN n (x ++ es) := by
  by_cases h : x.length ≤ n
  · rw [lastN_of_length_le _ _ h]
  · push_neg at h
    show (x.drop (x.length - n) ++ es).drop ((x.drop (x.length - n) ++ es).length - n)
        = (x ++ es).drop ((x ++ es).length - n)
    have h2 : (x.drop (x.length - n) ++ es).length - n = es.length := by
      rw [List.length_append, List.length_drop]
      omega
    have h3 : (x ++ es).drop (x.length - n) = x.drop (x.length - n) ++ es := by
      rw [List.drop_append_eq_append_drop,
        show x.length - n - x.length = 0 by omega, List.drop_zero]
    rw [h2]
    calc (x.drop (x.length - n) ++ es).drop es.length
        = ((x ++ es).drop (x.length - n)).drop es.length := by rw [h3]
      _ = (x ++ es).drop ((x.length - n) + es.length) := by rw [List.drop_drop]
      _ = (x ++ es).drop ((x ++ es).length - n) := by
          congr 1
          rw [List.length_append]
          omega

theorem foldl_pushLog_eq_lastN (n : Nat) (es : List LogEntry) :
    ∀ l : List LogEntry, l.length ≤ n →
      es.foldl (pushLog n) l = lastN n (l ++ es) := by
  induction es with
  | nil =>
    intro l h
    simp [lastN_of_length_le _ _ h]
  | cons e es ih =>
    intro l h
    rw [List.foldl_cons]
    have hlen : (pushLog n l e).length ≤ n := by
      rw [pushLog_eq_lastN _ _ _ h]
      exact lastN_length_le _ _
    rw [ih _ hlen, pushLog_eq_lastN _ _ _ h, lastN_append_lastN]
    congr 1
    simp

theorem logs_maxLogs_runEvents (es : List Event) (st : ServerState) :
    (runEvents es st).logs = (entriesOf es).foldl (pushLog st.maxLogs) st.logs
    ∧ (runEvents es st).maxLogs = st.maxLogs := by
  induction es generalizing st with
  | nil => exact ⟨rfl, rfl⟩
  | cons e es ih =>
    cases e with
    | connect sid ts =>
      refine ⟨?_, ?_⟩
      · have h := (ih (stepEvent st (Event.connect sid ts))).1
        simp only [runEvents, List.foldl_cons] at h ⊢
        rw [h]
        rfl
      · have h := (ih (stepEvent st (Event.connect sid ts))).2
        simp only [runEvents, List.foldl_cons] at h ⊢
        rw [h]
        rfl
    | append ts m lvl =>
      refine ⟨?_, ?_⟩
      · have h := (ih (stepEvent st (Event.append ts m lvl))).1
        simp only [runEvents, List.foldl_cons] at h ⊢
        rw [h]
        rfl
      · have h := (ih (stepEvent st (Event.append ts m lvl))).2
        simp only [runEvents, List.foldl_cons] at h ⊢
        rw [h]
        rfl

/-- C1: for every starting log within capacity and every sequence of appends
(including the "Client connected" appends made by connects), the event log
stays within `max_logs` and equals the most recent `max_logs` entries of the
full append history, in insertion order; with capacity 3, appending A, B, C, D
yields [B, C, D]. -/
theorem c1_eventlog_capacity (st : ServerState) (es : List Event)
    (h : st.logs.length ≤ st.maxLogs) :
    (runEvents es st).logs.length ≤ st.maxLogs
    ∧ (runEvents es st).logs = lastN st.maxLogs (st.logs ++ entriesOf es)
    ∧ (runEvents
        [Event.append 0 "A" "INFO", Event.append 1 "B" "INFO",
         Event.append 2 "C" "INFO", Event.append 3 "D" "INFO"]
        (initState 3)).logs
      = [⟨1, "INFO", "B"⟩, ⟨2, "INFO", "C"⟩, ⟨3, "INFO", "D"⟩] := by
  have hmain : (runEvents es st).logs = lastN st.maxLogs (st.logs ++ entriesOf es) := by
    rw [(logs_maxLogs_runEvents es st).1, foldl_pushLog_eq_lastN _ _ _ h]
  refine ⟨?_, hmain, by rfl⟩
  rw [hmain]
  exact lastN_length_le _ _

/-- Witness for C1 at a concrete state and event sequence. -/
theorem c1_eventlog_capacity_witness :
    (initState 100).logs.length ≤ (initState 100).maxLogs
    ∧ (runEvents [Event.append 0 "hello" "INFO"] (initState 100)).logs.length
        ≤ (initState 100).maxLogs :=
  ⟨by decide,
   (c1_eventlog_capacity (initState 100) [Event.append 0 "hello" "INFO"]
     (by decide)).1⟩

/-- C2 counterexample: the previous wifi value 5 is reachable (a real lookup
returning 5 is taken verbatim); on the next tick with a failed lookup,
simulation enabled and step -5, the code yields 10 (clamp `max(10, ...)`)
while the claimed clamp to [0,100] would yield 0. -/
theorem c2_wifi_clamp_counterexample :
    wifiTick true true (some 5) 0 85 = 5
    ∧ wifiTick true true none (-5) 5 = 10
    ∧ specWifiTick true none (-5) 5 = 0
    ∧ wifiTick true true none (-5) 5 ≠ specWifiTick true none (-5) 5 :=
  ⟨rfl, by decide, by decide, by decide⟩

/-- C2 amended: on a tick (with real-wifi detection enabled, its default), a
successful lookup is taken verbatim; otherwise with simulation enabled the
previous value moves by the random step and is clamped to [10,100] (lower
bound 10, not 0); otherwise wifi is left unchanged. -/
theorem c2_wifi_update_amended (sim : Bool) (real : Option Int) (step w : Int)
    (_hstep : -5 ≤ step ∧ step ≤ 5) :
    (∀ v, real = some v → wifiTick true sim real step w = v)
    ∧ (real = none → sim = true →
        wifiTick true sim real step w = max 10 (min 100 (w + step))
        ∧ 10 ≤ wifiTick true sim real step w
        ∧ wifiTick true sim real step w ≤ 100)
    ∧ (real = none → sim = false → wifiTick true sim real step w = w) := by
  refine ⟨?_, ?_, ?_⟩
  · intro v hv
    subst hv
    rfl
  · intro hr hs
    subst hr
    subst hs
    refine ⟨rfl, ?_, ?_⟩
    · show (10 : Int) ≤ max 10 (min 100 (w + step))
      exact le_max_left _ _
    · show max 10 (min 100 (w + step)) ≤ (100 : Int)
      exact max_le (by norm_num) (min_le_left _ _)
  · intro hr hs
    subst hr
    subst hs
    rfl

/-- Witness for the amended C2 at concrete inputs. -/
theorem c2_wifi_update_amended_witness :
    ((-5 : Int) ≤ -5 ∧ (-5 : Int) ≤ 5)
    ∧ (wifiTick true true none (-5) 50 = max 10 (min 100 (50 + -5))
        ∧ 10 ≤ wifiTick true true none (-5) 50
        ∧ wifiTick true true none (-5) 50 ≤ 100) :=
  ⟨by decide,
   (c2_wifi_update_amended true none (-5) 50 ⟨by decide, by decide⟩).2.1 rfl rfl⟩

/-- C3 counterexample: a joystick_move payload missing its x component is
rejected (KeyError is raised and no log is emitted), yet the shared joystick
control state has already been overwritten with the malformed payload, so the
control state is NOT left unchanged. -/
theorem c3_malformed_counterexample :
    (handleJoystick 0 ⟨none, some 1⟩ (initState 100)).2
        = Except.error "KeyError: x"
    ∧ (handleJoystick 0 ⟨none, some 1⟩ (initState 100)).1.joystick
        = ⟨none, some 1⟩
    ∧ (handleJoystick 0 ⟨none, some 1⟩ (initState 100)).1.joystick
        ≠ (initState 100).joystick :=
  ⟨rfl, rfl, by decide⟩

/-- C3 amended: a malformed command is rejected for that message only — the
handler raises, no log entry or session message is emitted, and the loop
continues with subsequent messages; depth_change missing its value leaves the
state fully unchanged; but joystick_move missing a component first overwrites
`ControlState.joystick` with the malformed payload. -/
theorem c3_malformed_amended (ts : Nat) (d : JoyPayload) (st : ServerState)
    (rest : List (Nat × Cmd)) (h : d.x = none) :
    (handleJoystick ts d st).2 = Except.error "KeyError: x"
    ∧ (handleJoystick ts d st).1 = { st with joystick := d }
    ∧ handleDepth ts none st = (st, Except.error "KeyError: value")
    ∧ runCmds ((ts, Cmd.joystickMove d) :: rest) st
        = runCmds rest { st with joystick := d } := by
  have hj : handleJoystick ts d st
      = ({ st with joystick := d }, Except.error "KeyError: x") := by
    unfold handleJoystick
    rw [h]
  refine ⟨by rw [hj], by rw [hj], rfl, ?_⟩
  unfold runCmds
  rw [List.foldl_cons]
  congr 1
  show (handleJoystick ts d st).1 = { st with joystick := d }
  rw [hj]

/-- Witness for the amended C3 at a concrete malformed payload. -/
theorem c3_malformed_amended_witness :
    ((JoyPayload.mk none (some 1)).x = none)
    ∧ (handleJoystick 3 ⟨none, some 1⟩ (initState 100)).1
        = { initState 100 with joystick := ⟨none, some 1⟩ } :=
  ⟨rfl, (c3_malformed_amended 3 ⟨none, some 1⟩ (initState 100) [] rfl).2.1⟩

/-- C4 counterexample: with the device opened successfully at start, a read
failure in the capture loop transitions the stream into the placeholder
(failure) state, but that iteration emits zero log entries — not exactly one
fallback entry per transition into failure. -/
theorem c4_fallback_log_counterexample :
    (captureStep (some (Frame.real 0))
        (startCam Source.camera 0 true ⟨false, none, false⟩).1).1.frame
      = some (Frame.real 0)
    ∧ (captureStep none
        (captureStep (some (Frame.real 0))
          (startCam Source.camera 0 true ⟨false, none, false⟩).1).1).1.frame
      = some Frame.dummy
    ∧ ((captureStep none
        (captureStep (some (Frame.real 0))
          (startCam Source.camera 0 true ⟨false, none, false⟩).1).1).2.filter
          isFallback).length
      = 0
    ∧ ((captureStep none
        (captureStep (some (Frame.real 0))
          (startCam Source.camera 0 true ⟨false, none, false⟩).1).1).2.filter
          isFallback).length
      ≠ 1 :=
  ⟨rfl, rfl, rfl, by decide⟩

/-- C4 amended: after any capture period the current frame slot is non-null
(placeholder fallback included); the capture loop itself never emits a log
entry, and the single fallback WARNING entry is emitted by start() when the
device cannot be opened. -/
theorem c4_fallback_amended (read : Option Frame) (c : Cam) (idx : Nat) :
    ((captureStep read c).1.frame).isSome = true
    ∧ (captureStep read c).2 = []
    ∧ ((startCam Source.camera idx false c).2.filter isFallback).length = 1
    ∧ (startCam Source.camera idx false c).1.frame = some Frame.dummy := by
  refine ⟨?_, ?_, rfl, rfl⟩
  · unfold captureStep
    cases hc : c.cameraOpen <;> cases read <;> simp [hc]
  · unfold captureStep
    cases hc : c.cameraOpen <;> cases read <;> simp [hc]

theorem getInbox_set_light (sid : Nat) (b : Bool) (st : ServerState) :
    getInbox sid { st with light := b } = getInbox sid st := rfl

theorem light_broadcast (m : Msg) (st : ServerState) :
    (broadcast m st).light = st.light := rfl

theorem light_addLog (ts : Nat) (m lvl : String) (st : ServerState) :
    (addLog ts m lvl st).light = st.light := rfl

/-- C5: a connecting session receives exactly one `logs` snapshot, equal to
the event log at connect time, followed by `new_log` events for exactly the
entries appended afterwards, in order — no duplicates, no gaps; the
"Client connected" entry is appended only after the snapshot is delivered, so
it arrives as the first `new_log` and is not part of the snapshot. -/
theorem c5_connect_log_protocol (pre post : List Event) (sid ts : Nat)
    (st0 : ServerState)
    (hfresh : sid ∉ sessionIds (runEvents pre st0))
    (hpost : sid ∉ connectIds post) :
    inboxLogMsgs sid (runEvents (pre ++ Event.connect sid ts :: post) st0)
      = some (Msg.logsSnapshot (runEvents pre st0).logs
          :: (connectedEntry ts :: entriesOf post).map Msg.newLog) := by
  unfold inboxLogMsgs
  have hsplit : runEvents (pre ++ Event.connect sid ts :: post) st0
      = runEvents post (handleConnect sid ts (runEvents pre st0)) := by
    unfold runEvents
    rw [List.foldl_append, List.foldl_cons]
    rfl
  rw [hsplit, getInbox_runEvents _ _ _ hpost,
    getInbox_handleConnect_self _ _ _ hfresh]
  simp [isLogMsg, filter_isLogMsg_map_newLog]

/-- Witness for C5 at a concrete trace. -/
theorem c5_connect_log_protocol_witness :
    (7 ∉ sessionIds (runEvents [Event.append 0 "boot" "INFO"] (initState 100)))
    ∧ (7 ∉ connectIds [Event.append 2 "later" "WARNING"])
    ∧ inboxLogMsgs 7
        (runEvents
          ([Event.append 0 "boot" "INFO"]
            ++ Event.connect 7 1 :: [Event.append 2 "later" "WARNING"])
          (initState 100))
      = some (Msg.logsSnapshot
            (runEvents [Event.append 0 "boot" "INFO"] (initState 100)).logs
          :: (connectedEntry 1
              :: entriesOf [Event.append 2 "later" "WARNING"]).map Msg.newLog) :=
  ⟨by decide, by decide,
   c5_connect_log_protocol [Event.append 0 "boot" "INFO"]
     [Event.append 2 "later" "WARNING"] 7 1 (initState 100)
     (by decide) (by decide)⟩

/-- C6: toggling the light twice returns `ControlState.light` to its original
value, and each of the two toggles broadcasts a `new_log` entry stating the
resulting ON/OFF state (followed by the `light_status` broadcast). -/
theorem c6_light_double_toggle (st : ServerState) (ts1 ts2 sid : Nat) :
    (handleLight ts2 (handleLight ts1 st)).light = st.light
    ∧ getInbox sid (handleLight ts2 (handleLight ts1 st))
      = (getInbox sid st).map (· ++
          [Msg.newLog ⟨ts1, "INFO", "Light " ++ (if !st.light then "ON" else "OFF")⟩,
           Msg.lightStatus (!st.light),
           Msg.newLog ⟨ts2, "INFO", "Light " ++ (if st.light then "ON" else "OFF")⟩,
           Msg.lightStatus st.light]) := by
  constructor
  · show (!(!st.light)) = st.light
    exact Bool.not_not st.light
  · simp only [handleLight]
    rw [getInbox_broadcast, getInbox_addLog, getInbox_set_light,
      getInbox_broadcast, getInbox_addLog, getInbox_set_light]
    cases getInbox sid st <;>
      simp [Bool.not_not, light_broadcast, light_addLog]

/-- C7: a well-formed joystick_move payload overwrites the joystick state with
exactly the supplied pair — arbitrary rational values, out-of-range included,
with no server-side clamping — succeeds, and broadcasts a `new_log` entry with
both values formatted to two decimal places. -/
theorem c7_joystick_verbatim (ts : Nat) (x y : ℚ) (st : ServerState) (sid : Nat) :
    (handleJoystick ts ⟨some x, some y⟩ st).1.joystick = ⟨some x, some y⟩
    ∧ (handleJoystick ts ⟨some x, some y⟩ st).2 = Except.ok ()
    ∧ getInbox sid (handleJoystick ts ⟨some x, some y⟩ st).1
      = (getInbox sid st).map (· ++
          [Msg.newLog ⟨ts, "INFO",
            "Joystick: X=" ++ fmt2 x ++ ", Y=" ++ fmt2 y⟩]) := by
  refine ⟨rfl, rfl, ?_⟩
  show getInbox sid
      (addLog ts ("Joystick: X=" ++ fmt2 x ++ ", Y=" ++ fmt2 y) "INFO"
        { st with joystick := ⟨some x, some y⟩ }) = _
  rw [getInbox_addLog]
  rfl

/-- C8: the `system_status` sent once on connect includes wifi, battery, depth
and light, while the `system_status` broadcast by a periodic telemetry tick
carries only wifi and battery (depth and light are absent); after
`depth_change` with value 42, a newly connecting session's initial payload
includes depth 42. -/
theorem c8_status_payload_shapes (detect sim : Bool) (real : Option Int)
    (ws bs : Int) (st : ServerState) (sid sid2 ts : Nat)
    (hfresh : sid2 ∉ sessionIds st) :
    getInbox sid (tick detect sim real ws bs st)
      = (getInbox sid st).map (· ++
          [Msg.systemStatus (wifiTick detect sim real ws st.wifi)
            (batteryTick sim bs st.battery) none none])
    ∧ getInbox sid2 (handleConnect sid2 ts st)
      = some [Msg.systemStatus st.wifi st.battery (some st.depth) (some st.light),
              Msg.logsSnapshot st.logs, Msg.newLog (connectedEntry ts)]
    ∧ getInbox 1 (handleConnect 1 5 ((handleDepth 0 (some 42) (initState 100)).1))
      = some [Msg.systemStatus 85 67 (some 42) (some false),
              Msg.logsSnapshot [⟨0, "INFO", "Depth changed to: 42"⟩],
              Msg.newLog (connectedEntry 5)] := by
  refine ⟨?_, getInbox_handleConnect_self _ _ _ hfresh, by decide⟩
  simp only [tick]
  rw [getInbox_broadcast]
  rfl

/-- Witness for C8 at a concrete fresh session. -/
theorem c8_status_payload_shapes_witness :
    (3 ∉ sessionIds (initState 100))
    ∧ getInbox 3 (handleConnect 3 0 (initState 100))
      = some [Msg.systemStatus 85 67 (some 0) (some false),
              Msg.logsSnapshot [], Msg.newLog (connectedEntry 0)] :=
  ⟨by decide,
   (c8_status_payload_shapes true true none 0 0 (initState 100) 0 3 0
     (by decide)).2.1⟩

theorem videoRun_none (cams : List Cam) (st : ServerState)
    (hc : ∀ x ∈ cams, x.frame = none) : videoRun cams st = st := by
  induction cams with
  | nil => rfl
  | cons c1 cs ih =>
    have h1 : videoIter c1 st = st := by
      unfold videoIter getFrameBase64
      rw [hc c1 (List.mem_cons_self _ _)]
      simp
    show List.foldl (fun s c => videoIter c s) st (c1 :: cs) = st
    rw [List.foldl_cons]
    show List.foldl (fun s c => videoIter c s) (videoIter c1 st) cs = st
    rw [h1]
    exact ih fun x hx => hc x (List.mem_cons_of_mem _ hx)

/-- C9: on a video push iteration with the camera active and an encoded frame
available, the frame is pushed to every connected session; when no frame is
available the iteration performs zero sends, changes nothing and raises no
error, for any number of iterations. -/
theorem c9_video_push_loop (st : ServerState) (c : Cam) (f0 : Frame)
    (sid : Nat) (cams : List Cam)
    (hact : st.cameraActive = true) (hc : ∀ x ∈ cams, x.frame = none) :
    (c.frame = some f0 →
      getInbox sid (videoIter c st)
        = (getInbox sid st).map (· ++ [Msg.videoFrame (encodeB64 f0)]))
    ∧ videoRun cams st = st := by
  refine ⟨?_, videoRun_none cams st hc⟩
  intro hf
  unfold videoIter getFrameBase64
  rw [hf, hact]
  simp [getInbox_broadcast]

/-- Witness for C9: a camera with a frame pushed to a session, and two
frameless iterations that change nothing. -/
theorem c9_video_push_loop_witness :
    ((initState 100).cameraActive = true)
    ∧ videoRun [Cam.mk true none false, Cam.mk false none true] (initState 100)
        = initState 100 :=
  ⟨rfl,
   (c9_video_push_loop (initState 100) ⟨true, none, false⟩ Frame.dummy 0
     [⟨true, none, false⟩, ⟨false, none, true⟩] rfl (by decide)).2⟩

/-- C10: when no frame has ever been captured, a get_frame request produces no
reply at all: `get_frame_base64` is None, nothing is emitted to the requester,
the state is unchanged and no error is raised. -/
theorem c10_get_frame_no_capture (sid : Nat) (c : Cam) (st : ServerState)
    (h : c.frame = none) :
    getFrameBase64 c = none ∧ handleGetFrame sid c st = st := by
  have h1 : getFrameBase64 c = none := by
    unfold getFrameBase64
    rw [h]
  refine ⟨h1, ?_⟩
  unfold handleGetFrame
  rw [h1]

/-- Witness for C10 at a concrete empty frame slot. -/
theorem c10_get_frame_no_capture_witness :
    ((Cam.mk true none true).frame = none)
    ∧ (getFrameBase64 ⟨true, none, true⟩ = none
        ∧ handleGetFrame 0 ⟨true, none, true⟩ (initState 100) = initState 100) :=
  ⟨rfl, c10_get_frame_no_capture 0 ⟨true, none, true⟩ (initState 100) rfl⟩
